import Mathlib

/-! Verification development for the universal database connector
(`mcp-servers/database-connector/connector.py`).

The Python module is shallowly embedded: the configuration registry, the
connection map and the query cache are passed as explicit state; the two
backends (the embedded SQLite engine and the Cloudflare D1 REST service)
are modelled by per-call outcome oracles; every `except` block of the
source is reified as a total function returning the structured result
dictionary the source builds.  Python strings are sequences of code
points, so the string primitives used by the source are embedded through
`List Char`. -/

namespace DBConnector

/-- One result row: the Python `dict(row)` of a fetched row, as an
association list from column name to the rendered value. -/
abbrev Row := List (String × String)

/-- The structured result dictionary produced by `execute_query`,
`get_schema_info`, `get_table_info` and the tool handlers.  Optional
fields model keys that are present only on some code paths.  The
`column_rows` field models the `columns` key of `get_table_info` (a list
of row dicts from `PRAGMA table_info`), distinct from the `columns` key
of the fetch path (a list of column names). -/
structure QueryResult where
  success : Bool
  data : Option (List Row) := none
  count : Option Nat := none
  columns : Option (List String) := none
  affected_rows : Option Int := none
  last_insert_id : Option Int := none
  meta : Option (List (String × String)) := none
  duration : Option Nat := none
  error : Option String := none
  query : Option String := none
  table : Option String := none
  column_rows : Option (List Row) := none
  tables : Option (List String) := none
  deriving Repr, DecidableEq

/-- The backend kind stored under `databases.<name>.type` in the
configuration file (`sqlite`, `cloudflare_d1`, or anything else). -/
inductive DbType where
  | sqlite
  | cloudflare_d1
  | other (t : String)
  deriving Repr, DecidableEq

/-- The per-database configuration record; only the `type` key steers
control flow in the embedded fragment. -/
structure DbConfig where
  dbtype : DbType
  deriving Repr, DecidableEq

/-- The `settings` block of the configuration (`cache_enabled`,
`cache_ttl` in seconds); the remaining keys are not read by the
embedded code paths. -/
structure Settings where
  cache_enabled : Bool
  cache_ttl : Nat
  deriving Repr, DecidableEq

/-- The loaded configuration: the named-database registry plus global
settings. -/
structure Config where
  databases : List (String × DbConfig)
  settings : Settings
  deriving Repr, DecidableEq

/-- A memoized live connection: `self.connections[name]` holds either a
`sqlite3` connection or a `CloudflareD1Connection`. -/
inductive Handle where
  | sqliteConn
  | d1Conn
  deriving Repr, DecidableEq

/-- A query-cache entry: `{"result": ..., "timestamp": datetime.now()}`.
Timestamps are whole seconds since an arbitrary epoch. -/
structure CacheEntry where
  result : QueryResult
  timestamp : Nat
  deriving Repr, DecidableEq

/-- The mutable state of a `DatabaseConnector` instance: `self.config`,
`self.connections`, `self.query_cache`. -/
structure ConnectorState where
  config : Config
  connections : List (String × Handle)
  query_cache : List (String × CacheEntry)
  deriving Repr, DecidableEq

/-- Python dict lookup `d.get(k)` over an association list. -/
def dictGet {α : Type} (l : List (String × α)) (k : String) : Option α :=
  match l with
  | [] => none
  | (k2, v) :: rest => if k2 = k then some v else dictGet rest k

/-- Python dict assignment `d[k] = v`: replaces the binding when the key
is present, appends it otherwise. -/
def dictInsert {α : Type} (l : List (String × α)) (k : String) (v : α) : List (String × α) :=
  match l with
  | [] => [(k, v)]
  | (k2, v2) :: rest => if k2 = k then (k, v) :: rest else (k2, v2) :: dictInsert rest k v

/-- Python `s.startswith(pre)` on code-point sequences. -/
def pyStartsWith (s pre : String) : Bool := decide (pre.data <+: s.data)

/-- Python `s.endswith(suf)` on code-point sequences. -/
def pyEndsWith (s suf : String) : Bool := decide (suf.data <:+ s.data)

/-- Python slicing `s[2:-1]` on code-point sequences. -/
def pySlice2toLast (s : String) : String := ⟨(s.data.drop 2).dropLast⟩

/-- The `DatabaseConnector._expand_env_vars` method: if the value starts
with `$\x7b` and ends with `\x7d`, look the enclosed name up in the process
environment (`os.getenv(env_var, value)` falls back to the unchanged
value); otherwise return the value unchanged.  The environment is passed
as an explicit partial map. -/
def _expand_env_vars (env : String → Option String) (value : String) : String :=
  if pyStartsWith value "$\x7b" && pyEndsWith value "\x7d" then
    (env (pySlice2toLast value)).getD value
  else value

/-- The apostrophe character, used by the source in the message
`Database <name> not configured` around the database name. -/
def apos : String := String.singleton (Char.ofNat 39)

/-- Rendering of the `params` tuple inside the cache-key f-string
(`None` when absent).  The Python `repr` additionally quotes the
elements; no claim depends on the exact rendering, only on its
determinism per parameter list. -/
def pyParamsStr : Option (List String) → String
  | none => "None"
  | some l => "(" ++ String.intercalate ", " l ++ ")"

/-- The `DatabaseConnector._get_cache_key` method.  The source hashes
the string `f"(database):(query):(params)"` with md5 and uses the hex
digest as the key; the hash is modelled by its preimage, which keys the
cache identically (the key is the same deterministic function of the
three inputs). -/
def _get_cache_key (database query : String) (params : Option (List String)) : String :=
  database ++ ":" ++ query ++ ":" ++ pyParamsStr params

/-- The `DatabaseConnector.get_connection` method.  Raising is modelled
by `Except.error` carrying the exception message; on success the
(possibly extended) connection map is returned together with the
handle.  The environment-variable expansion of the connection
parameters does not influence which handle is constructed, so it is not
part of the result. -/
def get_connection (cfg : Config) (connections : List (String × Handle))
    (database_name : String) : Except String (Handle × List (String × Handle)) :=
  match dictGet cfg.databases database_name with
  | none => .error ("Database " ++ apos ++ database_name ++ apos ++ " not configured")
  | some dbc =>
    match dictGet connections database_name with
    | some h => .ok (h, connections)
    | none =>
      match dbc.dbtype with
      | .sqlite => .ok (.sqliteConn, dictInsert connections database_name .sqliteConn)
      | .cloudflare_d1 => .ok (.d1Conn, dictInsert connections database_name .d1Conn)
      | .other t => .error ("Unsupported database type: " ++ t)

/-- One element of the `result` array of a D1 API success body:
`{"results": [...], "meta": {...}, "duration": ...}`. -/
structure D1QueryBlock where
  results : List Row
  meta : List (String × String)
  duration : Nat
  deriving Repr, DecidableEq

/-- The parsed JSON body of a D1 API response: the application-level
`success` flag, the `result` array, and the `errors` array (`none`
models an absent key, for which the source substitutes the default
list `["Unknown error"]`). -/
structure D1Body where
  success : Bool
  result : List D1QueryBlock
  errors : Option (List String)
  deriving Repr, DecidableEq

/-- The outcome of the HTTP POST issued by
`CloudflareD1Connection.execute`: either a response with a status code,
raw body text and parsed JSON body, or a transport-level exception with
its message. -/
inductive HttpOutcome where
  | response (status : Nat) (text : String) (body : D1Body)
  | transport (msg : String)
  deriving Repr, DecidableEq

/-- The `CloudflareD1Connection.execute` method.  On HTTP 200 with
application success, the first `result` block (or an empty dict when
the array is empty) supplies rows, metadata and timing; on application
failure, `result.get("errors", ["Unknown error"])[0]` supplies the
error, where indexing an explicitly empty `errors` array raises
`IndexError` inside the `try` block and is converted by the
`except` clause into a connection-error message; a non-200 status
yields the combined status/body string; a transport exception yields a
connection-error message. -/
def d1Execute : HttpOutcome → QueryResult
  | .response status text body =>
    if status = 200 then
      if body.success then
        let qb := body.result.headD ⟨[], [], 0⟩
        { success := true, data := some qb.results, count := some qb.results.length,
          meta := some qb.meta, duration := some qb.duration }
      else
        match body.errors with
        | none => { success := false, error := some "Unknown error" }
        | some [] => { success := false, error := some "Connection error: list index out of range" }
        | some (e :: _) => { success := false, error := some e }
    else { success := false, error := some ("HTTP " ++ toString status ++ ": " ++ text) }
  | .transport msg => { success := false, error := some ("Connection error: " ++ msg) }

/-- The cursor state produced by a non-raising `sqlite3` execute: the
fetched rows, the column names computed from `cursor.description`, and
the mutation counters. -/
structure SqliteCursor where
  rows : List Row
  columns : List String
  rowcount : Int
  lastrowid : Int
  deriving Repr, DecidableEq

/-- The outcome oracle for one embedded-engine call: either the raised
exception's message or the resulting cursor. -/
inductive SqliteOutcome where
  | raises (msg : String)
  | cursor (c : SqliteCursor)
  deriving Repr, DecidableEq

/-- The backend dispatch inside `execute_query`: a
`CloudflareD1Connection` handle delegates to `d1Execute` (which never
raises); a `sqlite3` handle either raises or builds the fetch result
(rows, count, column names) or the mutation result (affected rows,
last insert id) according to `fetch`. -/
def runBackend (h : Handle) (sqout : SqliteOutcome) (d1out : HttpOutcome) (fetch : Bool) :
    Except String QueryResult :=
  match h with
  | .d1Conn => .ok (d1Execute d1out)
  | .sqliteConn =>
    match sqout with
    | .raises msg => .error msg
    | .cursor c =>
      if fetch then
        .ok { success := true, data := some c.rows, count := some c.rows.length,
              columns := some c.columns }
      else
        .ok { success := true, affected_rows := some c.rowcount,
              last_insert_id := some c.lastrowid }

/-- The expression `(datetime.now() - entry["timestamp"]).seconds`: the
seconds component of the timedelta, i.e. the age in whole seconds
reduced modulo one day (86400 s) — not the total age. -/
def tdSeconds (d : Nat) : Nat := d % 86400

/-- The cache-read prefix of `execute_query` (lines 138-143 of the
source): when caching is enabled and the key is present and
`(now - timestamp).seconds < cache_ttl`, the stored result is
returned. -/
def cacheLookup (st : ConnectorState) (now : Nat) (key : String) : Option QueryResult :=
  if st.config.settings.cache_enabled then
    match dictGet st.query_cache key with
    | some entry =>
      if tdSeconds (now - entry.timestamp) < st.config.settings.cache_ttl then
        some entry.result
      else none
    | none => none
  else none

/-- The `DatabaseConnector.execute_query` method.  `now` is the current
time in whole seconds; `sqout` and `d1out` are the outcome oracles for
the (at most one) backend call.  The final state carries the possibly
extended connection map and the possibly extended cache; every
exception raised inside the `try` block is converted into
`(success := false, error, query)` — the function is total, embedding
the fact that nothing is raised past this boundary. -/
def execute_query (st : ConnectorState) (now : Nat) (sqout : SqliteOutcome)
    (d1out : HttpOutcome) (database query : String) (params : Option (List String))
    (fetch : Bool) : QueryResult × ConnectorState :=
  let cache_key := _get_cache_key database query params
  match cacheLookup st now cache_key with
  | some r => (r, st)
  | none =>
    match get_connection st.config st.connections database with
    | .error msg => ({ success := false, error := some msg, query := some query }, st)
    | .ok (h, conns2) =>
      let st1 : ConnectorState := { st with connections := conns2 }
      match runBackend h sqout d1out fetch with
      | .error msg => ({ success := false, error := some msg, query := some query }, st1)
      | .ok result =>
        if st.config.settings.cache_enabled && fetch then
          (result, { st1 with
            query_cache := dictInsert st1.query_cache cache_key ⟨result, now⟩ })
        else (result, st1)

/-- The `DatabaseConnector.get_schema_info` method: acquires the
connection and issues the catalog query directly on it, bypassing
`execute_query`; every raised exception becomes
`(success := false, error)`. -/
def get_schema_info (st : ConnectorState) (sqout : SqliteOutcome) (d1out : HttpOutcome)
    (database : String) : QueryResult × ConnectorState :=
  match get_connection st.config st.connections database with
  | .error msg => ({ success := false, error := some msg }, st)
  | .ok (h, conns2) =>
    let st1 : ConnectorState := { st with connections := conns2 }
    match h with
    | .d1Conn => (d1Execute d1out, st1)
    | .sqliteConn =>
      match sqout with
      | .raises msg => ({ success := false, error := some msg }, st1)
      | .cursor c =>
        ({ success := true, data := some c.rows, count := some c.rows.length }, st1)

/-- The `DatabaseConnector.get_table_info` method: acquires the
connection and issues `PRAGMA table_info(<table>)` directly on it; on
the embedded engine the rows are returned under the `columns` key
(modelled by `column_rows`); every raised exception becomes
`(success := false, error, table)`. -/
def get_table_info (st : ConnectorState) (sqout : SqliteOutcome) (d1out : HttpOutcome)
    (database table_name : String) : QueryResult × ConnectorState :=
  match get_connection st.config st.connections database with
  | .error msg => ({ success := false, error := some msg, table := some table_name }, st)
  | .ok (h, conns2) =>
    let st1 : ConnectorState := { st with connections := conns2 }
    match h with
    | .d1Conn => (d1Execute d1out, st1)
    | .sqliteConn =>
      match sqout with
      | .raises msg => ({ success := false, error := some msg, table := some table_name }, st1)
      | .cursor c =>
        ({ success := true, table := some table_name, column_rows := some c.rows }, st1)

/-- Python `item[k]` on a row dict, totalized with the empty string
(the schema rows produced by the catalog query always carry the `name`
and `type` keys read by the callers). -/
def rowGetD (r : Row) (k : String) : String := (dictGet r k).getD ""

/-- The `list_tables` branch of `handle_call_tool`: runs
`get_schema_info` and, on success, filters the schema objects to
tables and projects their names; on failure the schema-info error
result is passed through. -/
def list_tables (st : ConnectorState) (sqout : SqliteOutcome) (d1out : HttpOutcome)
    (database : String) : QueryResult × ConnectorState :=
  let p := get_schema_info st sqout d1out database
  if p.1.success then
    ({ success := true,
       tables := some ((((p.1.data).getD []).filter
         (fun row => rowGetD row "type" == "table")).map (fun row => rowGetD row "name")) },
     p.2)
  else p

/-- One column specification of the `create_table` tool input
(`nullable` defaults to true, `primary_key` to false, `default` to
absent). -/
structure ColumnSpec where
  name : String
  type : String
  nullable : Bool := true
  primary_key : Bool := false
  default : Option String := none
  deriving Repr, DecidableEq

/-- The per-column rendering of the `create_table` branch of
`handle_call_tool`: `<name> <type>`, then ` NOT NULL` when
`nullable` is false, then ` PRIMARY KEY` when set, then
` DEFAULT <value>` when a default is given (the source tests Python
truthiness, so an empty-string default is skipped). -/
def renderColumn (c : ColumnSpec) : String :=
  let s0 := c.name ++ " " ++ c.type
  let s1 := if c.nullable then s0 else s0 ++ " NOT NULL"
  let s2 := if c.primary_key then s1 ++ " PRIMARY KEY" else s1
  match c.default with
  | some d => if d = "" then s2 else s2 ++ " DEFAULT " ++ d
  | none => s2

/-- The statement built by the `create_table` branch:
`CREATE TABLE <table> (<comma-joined column definitions>)`. -/
def create_table_sql (table : String) (cols : List ColumnSpec) : String :=
  "CREATE TABLE " ++ table ++ " (" ++ String.intercalate ", " (cols.map renderColumn) ++ ")"

/-- The `create_table` branch of `handle_call_tool`: builds the DDL
statement and submits it through `execute_query` with no parameters
and `fetch := false`. -/
def create_table (st : ConnectorState) (now : Nat) (sqout : SqliteOutcome)
    (d1out : HttpOutcome) (database table : String) (columns : List ColumnSpec) :
    QueryResult × ConnectorState :=
  execute_query st now sqout d1out database (create_table_sql table columns) none false

/-- A sample environment binding only `FOO=bar`, used by witnesses. -/
def sampleEnv : String → Option String := fun s => if s = "FOO" then some "bar" else none

theorem placeholder_startsWith (n : String) :
    pyStartsWith ("$\x7b" ++ n ++ "\x7d") "$\x7b" = true := by
  have h1 : ("$\x7b" ++ n ++ "\x7d").data = "$\x7b".data ++ (n.data ++ "\x7d".data) := by
    rw [String.data_append, String.data_append, List.append_assoc]
  rw [pyStartsWith, h1]
  exact decide_eq_true (List.prefix_append _ _)

theorem placeholder_endsWith (n : String) :
    pyEndsWith ("$\x7b" ++ n ++ "\x7d") "\x7d" = true := by
  have h1 : ("$\x7b" ++ n ++ "\x7d").data = ("$\x7b".data ++ n.data) ++ "\x7d".data := by
    rw [String.data_append, String.data_append]
  rw [pyEndsWith, h1]
  exact decide_eq_true (List.suffix_append _ _)

theorem placeholder_slice (n : String) : pySlice2toLast ("$\x7b" ++ n ++ "\x7d") = n := by
  apply String.ext
  show (("$\x7b" ++ n ++ "\x7d").data.drop 2).dropLast = n.data
  have h1 : ("$\x7b" ++ n ++ "\x7d").data = "$\x7b".data ++ (n.data ++ "\x7d".data) := by
    rw [String.data_append, String.data_append, List.append_assoc]
  rw [h1, show (2 : Nat) = ("$\x7b".data : List Char).length from rfl, List.drop_left]
  exact List.dropLast_concat

theorem placeholder_shape (v : String) (h1 : pyStartsWith v "$\x7b" = true)
    (h2 : pyEndsWith v "\x7d" = true) :
    v = "$\x7b" ++ pySlice2toLast v ++ "\x7d" := by
  rw [pyStartsWith, decide_eq_true_eq] at h1
  rw [pyEndsWith, decide_eq_true_eq] at h2
  obtain ⟨t, ht⟩ := h1
  obtain ⟨s, hs⟩ := h2
  rcases List.eq_nil_or_concat t with rfl | ⟨mid, c, rfl⟩
  · exfalso
    have hv : v.data = ['$', '\x7b'] := by simpa using ht.symm
    rw [hv] at hs
    have hlast : some '\x7d' = some '\x7b' := by
      calc some '\x7d' = (s ++ ['\x7d']).getLast? := (List.getLast?_concat s).symm
        _ = (['$', '\x7b'] : List Char).getLast? := by rw [hs]
        _ = some '\x7b' := rfl
    exact absurd hlast (by decide)
  · have hvdata : v.data = ['$', '\x7b'] ++ (mid ++ [c]) := by
      rw [← ht, List.concat_eq_append]
    have hc : c = '\x7d' := by
      have hl1 : v.data.getLast? = some c := by
        rw [hvdata, ← List.append_assoc]
        exact List.getLast?_concat _
      have hl2 : v.data.getLast? = some '\x7d' := by
        rw [← hs]
        exact List.getLast?_concat _
      rw [hl1] at hl2
      exact Option.some_inj.mp hl2
    subst hc
    apply String.ext
    have hslice : (pySlice2toLast v).data = mid := by
      show (v.data.drop 2).dropLast = mid
      rw [hvdata, show (2 : Nat) = (['$', '\x7b'] : List Char).length from rfl,
        List.drop_left]
      exact List.dropLast_concat
    rw [String.data_append, String.data_append, hslice, hvdata]
    simp

/-- C9: for every string value, resolving the placeholder `$\x7bNAME\x7d`
with `NAME` set in the environment yields the variable's value;
resolving it with `NAME` unset yields the placeholder itself unchanged;
and every value that is not a placeholder passes through unchanged. -/
theorem expand_env_vars_spec (env : String → Option String) :
    (∀ name v, env name = some v →
      _expand_env_vars env ("$\x7b" ++ name ++ "\x7d") = v)
    ∧ (∀ name, env name = none →
      _expand_env_vars env ("$\x7b" ++ name ++ "\x7d") = "$\x7b" ++ name ++ "\x7d")
    ∧ (∀ value, (∀ name, value ≠ "$\x7b" ++ name ++ "\x7d") →
      _expand_env_vars env value = value) := by
  refine ⟨?_, ?_, ?_⟩
  · intro name v h
    simp [_expand_env_vars, placeholder_startsWith, placeholder_endsWith,
      placeholder_slice, h]
  · intro name h
    simp [_expand_env_vars, placeholder_startsWith, placeholder_endsWith,
      placeholder_slice, h]
  · intro value h
    unfold _expand_env_vars
    by_cases h1 : pyStartsWith value "$\x7b" = true
    · by_cases h2 : pyEndsWith value "\x7d" = true
      · exact absurd (placeholder_shape value h1 h2) (h _)
      · simp only [Bool.not_eq_true] at h2
        simp [h2]
    · simp only [Bool.not_eq_true] at h1
      simp [h1]

/-- Witness for C9: with `FOO=bar` in the environment, resolving the
placeholder for `FOO` yields `bar` and resolving the placeholder for
the unset `MISSING` yields the placeholder unchanged. -/
theorem expand_env_vars_spec_witness :
    _expand_env_vars sampleEnv ("$\x7b" ++ "FOO" ++ "\x7d") = "bar"
    ∧ _expand_env_vars sampleEnv ("$\x7b" ++ "MISSING" ++ "\x7d")
        = "$\x7b" ++ "MISSING" ++ "\x7d" :=
  ⟨(expand_env_vars_spec sampleEnv).1 "FOO" "bar" (by decide),
   (expand_env_vars_spec sampleEnv).2.1 "MISSING" (by decide)⟩

/-- C10: expansion triggers only when the whole value is a single
placeholder: any value whose guard (starts with the two placeholder
characters and ends with the closing brace) fails passes through
unchanged, in particular `prefix$\x7bFOO\x7dsuffix` is unchanged for every
environment, and the juxtaposition `$\x7bA\x7d$\x7bB\x7d` is treated as one
lookup of the single variable named `A\x7d$\x7bB`. -/
theorem expand_env_vars_whole_value_only (env : String → Option String) :
    (∀ value, (pyStartsWith value "$\x7b" && pyEndsWith value "\x7d") = false →
      _expand_env_vars env value = value)
    ∧ _expand_env_vars env "prefix$\x7bFOO\x7dsuffix" = "prefix$\x7bFOO\x7dsuffix"
    ∧ _expand_env_vars env ("$\x7bA\x7d" ++ "$\x7bB\x7d")
        = (env "A\x7d$\x7bB").getD ("$\x7bA\x7d" ++ "$\x7bB\x7d") := by
  refine ⟨?_, ?_, ?_⟩
  · intro value h
    simp [_expand_env_vars, h]
  · have hg : (pyStartsWith "prefix$\x7bFOO\x7dsuffix" "$\x7b"
        && pyEndsWith "prefix$\x7bFOO\x7dsuffix" "\x7d") = false := by decide
    simp [_expand_env_vars, hg]
  · have hv : ("$\x7bA\x7d" ++ "$\x7bB\x7d" : String) = "$\x7bA\x7d$\x7bB\x7d" := by decide
    rw [hv]
    have hg : (pyStartsWith "$\x7bA\x7d$\x7bB\x7d" "$\x7b"
        && pyEndsWith "$\x7bA\x7d$\x7bB\x7d" "\x7d") = true := by decide
    have hs : pySlice2toLast "$\x7bA\x7d$\x7bB\x7d" = "A\x7d$\x7bB" := by decide
    simp [_expand_env_vars, hg, hs]

/-- Witness for C10: a plain value passes through unchanged even though
`FOO` is set in the environment. -/
theorem expand_env_vars_whole_value_only_witness :
    _expand_env_vars sampleEnv "FOO" = "FOO" :=
  (expand_env_vars_whole_value_only sampleEnv).1 "FOO" (by decide)

/-- A configuration with one embedded database named `default` and the
default settings (caching on, ttl 300 s). -/
def sqliteConfig : Config := ⟨[("default", ⟨.sqlite⟩)], ⟨true, 300⟩⟩

/-- A configuration with one remote database named `cloud` and the
default settings. -/
def d1Config : Config := ⟨[("cloud", ⟨.cloudflare_d1⟩)], ⟨true, 300⟩⟩

/-- A fresh connector over `d1Config`: no connections, empty cache. -/
def d1FreshState : ConnectorState := ⟨d1Config, [], []⟩

/-- The result `CloudflareD1Connection.execute` produces when the POST
raises a transport-level exception. -/
def c1Failed : QueryResult :=
  { success := false, error := some "Connection error: Cannot connect to host" }

/-- C1, code-bug evidence: on a fresh connector, a `fetch=true` query
against the remote database whose HTTP call fails at transport level
returns an unsuccessful result, and that unsuccessful result is stored
in the query cache (the store step checks only `cache_enabled` and
`fetch`, not `success`, although the source comments the step with
`Cache successful results`). -/
theorem failed_result_cached :
    execute_query d1FreshState 1000 (.raises "unused") (.transport "Cannot connect to host")
        "cloud" "SELECT 1" none true
      = (c1Failed,
         ⟨d1Config, [("cloud", .d1Conn)],
          [(_get_cache_key "cloud" "SELECT 1" none, ⟨c1Failed, 1000⟩)]⟩)
    ∧ c1Failed.success = false := by decide

/-- A cached fetch-style result for the mutation statement below. -/
def cachedReadResult : QueryResult :=
  { success := true, data := some [[("x", "1")]], count := some 1, columns := some ["x"] }

/-- A mutation statement (submitted with `fetch=false`). -/
def mutationQuery : String := "INSERT INTO t (x) VALUES (1)"

/-- A connector state whose cache holds an unexpired entry under the
fingerprint of (`default`, `mutationQuery`, no params). -/
def c2State : ConnectorState :=
  ⟨sqliteConfig, [("default", .sqliteConn)],
   [(_get_cache_key "default" mutationQuery none, ⟨cachedReadResult, 0⟩)]⟩

/-- C2, counterexample: a call with `fetch=false` whose key has an
unexpired cache entry is served from the cache — the stored fetch-style
result is returned (no `affected_rows`), the state is unchanged, and
the backend is never invoked; the cache lookup does not test `fetch`. -/
theorem mutation_served_from_cache :
    execute_query c2State 10 (.cursor ⟨[], [], 1, 1⟩) (.transport "unused")
        "default" mutationQuery none false
      = (cachedReadResult, c2State)
    ∧ cachedReadResult.affected_rows = none := by decide

/-- C2, amended: `execute_query` attempts the cache lookup whenever
caching is enabled, regardless of `fetch`; on an unexpired hit the
stored result is returned unchanged with no backend call and no state
change (the conclusion does not depend on the backend oracles); and
when caching is disabled the cache contents never influence the
result. -/
theorem cache_hit_behavior :
    (∀ (st : ConnectorState) (now : Nat) (sqout : SqliteOutcome) (d1out : HttpOutcome)
      (database query : String) (params : Option (List String)) (fetch : Bool)
      (entry : CacheEntry),
      st.config.settings.cache_enabled = true →
      dictGet st.query_cache (_get_cache_key database query params) = some entry →
      tdSeconds (now - entry.timestamp) < st.config.settings.cache_ttl →
      execute_query st now sqout d1out database query params fetch = (entry.result, st))
    ∧ (∀ (cfg : Config) (conns : List (String × Handle))
      (cache1 cache2 : List (String × CacheEntry)) (now : Nat) (sqout : SqliteOutcome)
      (d1out : HttpOutcome) (database query : String) (params : Option (List String))
      (fetch : Bool),
      cfg.settings.cache_enabled = false →
      (execute_query ⟨cfg, conns, cache1⟩ now sqout d1out database query params fetch).1
        = (execute_query ⟨cfg, conns, cache2⟩ now sqout d1out database query params fetch).1) := by
  constructor
  · intro st now sqout d1out database query params fetch entry h1 h2 h3
    have hl : cacheLookup st now (_get_cache_key database query params)
        = some entry.result := by
      unfold cacheLookup
      rw [h1, h2]
      simp [h3]
    simp only [execute_query, hl]
  · intro cfg conns cache1 cache2 now sqout d1out database query params fetch h
    have hl1 : cacheLookup ⟨cfg, conns, cache1⟩ now (_get_cache_key database query params)
        = none := by unfold cacheLookup; rw [h]; simp
    have hl2 : cacheLookup ⟨cfg, conns, cache2⟩ now (_get_cache_key database query params)
        = none := by unfold cacheLookup; rw [h]; simp
    simp only [execute_query, hl1, hl2]
    cases hgc : get_connection cfg conns database with
    | error msg => rfl
    | ok pr =>
      obtain ⟨h2, conns2⟩ := pr
      simp only []
      cases hrb : runBackend h2 sqout d1out fetch with
      | error msg => simp only []
      | ok result =>
        simp only []
        by_cases hb : (cfg.settings.cache_enabled && fetch) = true <;> simp [hb]

/-- Witness for C2's amended theorem: a `fetch=true` call on `c2State`
is served from the unexpired cache entry with the state unchanged. -/
theorem cache_hit_behavior_witness :
    execute_query c2State 10 (.raises "a") (.transport "b") "default" mutationQuery none true
      = (cachedReadResult, c2State) :=
  cache_hit_behavior.1 c2State 10 (.raises "a") (.transport "b") "default" mutationQuery none
    true ⟨cachedReadResult, 0⟩ (by decide) (by decide) (by decide)

/-- The fetch result cached at time 0 in the C3 scenario. -/
def c3Result : QueryResult :=
  { success := true, data := some [], count := some 0, columns := some [] }

/-- A connector state with an entry for (`default`, `SELECT 1`, no
params) inserted at time 0 under ttl 300. -/
def c3State : ConnectorState :=
  ⟨sqliteConfig, [("default", .sqliteConn)],
   [(_get_cache_key "default" "SELECT 1" none, ⟨c3Result, 0⟩)]⟩

/-- C3, code-bug evidence: with ttl 300 and an entry inserted at time
0, a request at 86500 s — more than a full day later — is still served
from the cache with no backend call (the age test uses the seconds
component of the timedelta, i.e. the age modulo 86400), while the
request at 301 s = ttl + 1 correctly bypasses the cache and returns
the fresh backend result. -/
theorem stale_entry_served_after_a_day :
    execute_query c3State 86500 (.cursor ⟨[[("y", "2")]], ["y"], 0, 0⟩) (.transport "u")
        "default" "SELECT 1" none true
      = (c3Result, c3State)
    ∧ (execute_query c3State 301 (.cursor ⟨[[("y", "2")]], ["y"], 0, 0⟩) (.transport "u")
        "default" "SELECT 1" none true).1
      = { success := true, data := some [[("y", "2")]], count := some 1,
          columns := some ["y"] } := by decide

/-- C4: whenever the cache does not intercept the call and a fault
arises below the executor — the configuration lookup or connection
construction raises, or the embedded backend raises — `execute_query`
returns a structured result with `success=false` and the fault's
message instead of raising (the function is total: every exception path
of the source is reified as a returned result, so nothing propagates
past the executor boundary; the remote backend converts its own faults
before returning, see `d1Execute`). -/
theorem execute_query_error_boundary (st : ConnectorState) (now : Nat)
    (sqout : SqliteOutcome) (d1out : HttpOutcome) (database query : String)
    (params : Option (List String)) (fetch : Bool)
    (hmiss : cacheLookup st now (_get_cache_key database query params) = none)
    (hfault : (∃ m, get_connection st.config st.connections database = .error m)
      ∨ (∃ h conns2, get_connection st.config st.connections database = .ok (h, conns2)
          ∧ ∃ m, runBackend h sqout d1out fetch = .error m)) :
    ∃ m, (execute_query st now sqout d1out database query params fetch).1
      = { success := false, error := some m, query := some query } := by
  rcases hfault with ⟨m, hm⟩ | ⟨h, conns2, hok, m, hm⟩
  · simp only [execute_query, hmiss, hm]
    exact ⟨m, rfl⟩
  · simp only [execute_query, hmiss, hok, hm]
    exact ⟨m, rfl⟩

/-- A connector with an empty database registry. -/
def emptyState : ConnectorState := ⟨⟨[], ⟨true, 300⟩⟩, [], []⟩

/-- Witness for C4: querying an unregistered database on a fresh
connector yields a structured failure carrying the fault message. -/
theorem execute_query_error_boundary_witness :
    ∃ m, (execute_query emptyState 0 (.raises "x") (.transport "y") "nope" "SELECT 1"
        none true).1
      = { success := false, error := some m, query := some "SELECT 1" } :=
  execute_query_error_boundary emptyState 0 (.raises "x") (.transport "y") "nope" "SELECT 1"
    none true (by decide)
    (Or.inl ⟨"Database " ++ apos ++ "nope" ++ apos ++ " not configured", rfl⟩)

/-- C5: the remote backend maps every HTTP outcome as specified — a 200
response whose body reports application success yields `success=true`
with the rows, metadata and timing of the first result block; a 200
response reporting application failure yields `success=false` carrying
the first reported application error; any non-200 status yields
`success=false` with the status code and response body combined into
the error string; and any transport-level exception yields
`success=false` with a connection-error message. -/
theorem d1_execute_http_mapping :
    (∀ text body, body.success = true →
      d1Execute (.response 200 text body)
        = { success := true, data := some (body.result.headD ⟨[], [], 0⟩).results,
            count := some (body.result.headD ⟨[], [], 0⟩).results.length,
            meta := some (body.result.headD ⟨[], [], 0⟩).meta,
            duration := some (body.result.headD ⟨[], [], 0⟩).duration })
    ∧ (∀ text body e es, body.success = false → body.errors = some (e :: es) →
      d1Execute (.response 200 text body) = { success := false, error := some e })
    ∧ (∀ status text body, status ≠ 200 →
      d1Execute (.response status text body)
        = { success := false, error := some ("HTTP " ++ toString status ++ ": " ++ text) })
    ∧ (∀ msg, d1Execute (.transport msg)
        = { success := false, error := some ("Connection error: " ++ msg) }) := by
  refine ⟨?_, ?_, ?_, ?_⟩
  · intro text body h
    simp [d1Execute, h]
  · intro text body e es h1 h2
    simp [d1Execute, h1, h2]
  · intro status text body h
    simp [d1Execute, h]
  · intro msg
    rfl

/-- Witness for C5: a 200 response with an application-level error list
yields its first error, and a 500 response yields the combined
status/body string. -/
theorem d1_execute_http_mapping_witness :
    d1Execute (.response 200 "" ⟨false, [], some ["no such table"]⟩)
      = { success := false, error := some "no such table" }
    ∧ d1Execute (.response 500 "oops" ⟨false, [], none⟩)
      = { success := false,
          error := some ("HTTP " ++ toString (500 : Nat) ++ ": " ++ "oops") } :=
  ⟨d1_execute_http_mapping.2.1 "" ⟨false, [], some ["no such table"]⟩ "no such table" []
      rfl rfl,
   d1_execute_http_mapping.2.2.1 500 "oops" ⟨false, [], none⟩ (by decide)⟩

/-- C6: querying a database name absent from the configured registry —
provided the cache does not intercept the call, as on any state whose
entries were produced by calls to configured databases — returns
`success=false` carrying the not-configured message (a raised
`ValueError` converted at the executor boundary, the spec's
`ConfigurationError` class), and leaves the state unchanged: no handle
is constructed or memoized and the cache is untouched. -/
theorem execute_query_unknown_database (st : ConnectorState) (now : Nat)
    (sqout : SqliteOutcome) (d1out : HttpOutcome) (database query : String)
    (params : Option (List String)) (fetch : Bool)
    (hunknown : dictGet st.config.databases database = none)
    (hmiss : cacheLookup st now (_get_cache_key database query params) = none) :
    execute_query st now sqout d1out database query params fetch
      = ({ success := false,
           error := some ("Database " ++ apos ++ database ++ apos ++ " not configured"),
           query := some query }, st) := by
  have hgc : get_connection st.config st.connections database
      = .error ("Database " ++ apos ++ database ++ apos ++ " not configured") := by
    unfold get_connection
    rw [hunknown]
  simp only [execute_query, hmiss, hgc]

/-- A fresh connector over `sqliteConfig`: no connections, empty
cache. -/
def defaultOnlyState : ConnectorState := ⟨sqliteConfig, [], []⟩

/-- Witness for C6: querying `nope` on a fresh connector configured
with only `default` yields the structured not-configured failure and an
unchanged state. -/
theorem execute_query_unknown_database_witness :
    execute_query defaultOnlyState 0 (.raises "x") (.transport "y") "nope" "SELECT 1"
        none true
      = ({ success := false,
           error := some ("Database " ++ apos ++ "nope" ++ apos ++ " not configured"),
           query := some "SELECT 1" }, defaultOnlyState) :=
  execute_query_unknown_database defaultOnlyState 0 (.raises "x") (.transport "y") "nope"
    "SELECT 1" none true (by decide) (by decide)

/-- C7: `create_table` builds the deterministic statement
`CREATE TABLE <table> (<defs>)` where the definitions are the rendered
columns joined in the order given, each column rendering as
`<name> <type>` followed by the optional ` NOT NULL`, ` PRIMARY KEY`
and ` DEFAULT <value>` clauses; the spec's example input produces
exactly `CREATE TABLE t (id INTEGER PRIMARY KEY, label TEXT)`.  (The
hypothesis excludes an empty-string default, which the source's Python
truthiness test skips.) -/
theorem create_table_sql_deterministic :
    create_table_sql "t"
        [⟨"id", "INTEGER", true, true, none⟩, ⟨"label", "TEXT", true, false, none⟩]
      = "CREATE TABLE t (id INTEGER PRIMARY KEY, label TEXT)"
    ∧ (∀ table cols, create_table_sql table cols
        = "CREATE TABLE " ++ table ++ " ("
          ++ String.intercalate ", " (cols.map renderColumn) ++ ")")
    ∧ (∀ nm ty nl pk dv, dv ≠ some "" →
      renderColumn ⟨nm, ty, nl, pk, dv⟩
        = nm ++ " " ++ ty ++ (if nl then "" else " NOT NULL")
          ++ (if pk then " PRIMARY KEY" else "")
          ++ (match dv with | some d => " DEFAULT " ++ d | none => "")) := by
  refine ⟨by decide, fun table cols => rfl, ?_⟩
  intro nm ty nl pk dv hdv
  apply String.ext
  cases dv with
  | none =>
    cases nl <;> cases pk <;>
      simp [renderColumn, String.data_append, show ("" : String).data = [] from rfl]
  | some d =>
    have hd : ¬ d = "" := fun hcon => hdv (by rw [hcon])
    cases nl <;> cases pk <;>
      simp [renderColumn, String.data_append, hd,
        show ("" : String).data = [] from rfl]

/-- Witness for C7's column-rendering clause at a non-default column
with an explicit default value. -/
theorem create_table_sql_deterministic_witness :
    renderColumn ⟨"x", "TEXT", false, false, some "1"⟩
      = "x" ++ " " ++ "TEXT" ++ (if false then "" else " NOT NULL")
        ++ (if false then " PRIMARY KEY" else "") ++ (" DEFAULT " ++ "1") :=
  create_table_sql_deterministic.2.2 "x" "TEXT" false false (some "1") (by decide)

/-- The single column of the C8 scenario. -/
def c8Column : ColumnSpec := ⟨"id", "INTEGER", true, false, none⟩

/-- A fetch-style result cached under the fingerprint of the generated
`CREATE TABLE` statement. -/
def c8CachedResult : QueryResult :=
  { success := true, data := some [], count := some 0, columns := some [] }

/-- A state whose cache holds an unexpired entry under the fingerprint
of (`default`, the generated DDL statement, no params). -/
def c8StateWithEntry : ConnectorState :=
  ⟨sqliteConfig, [("default", .sqliteConn)],
   [(_get_cache_key "default" (create_table_sql "t" [c8Column]) none, ⟨c8CachedResult, 0⟩)]⟩

/-- The same state with an empty cache. -/
def c8StateEmpty : ConnectorState := ⟨sqliteConfig, [("default", .sqliteConn)], []⟩

/-- C8, counterexample: `create_table` does read the query cache — on
two states identical except for the cache contents, the call returns
the cached fetch-style entry in one and the backend's mutation result
in the other, so its outcome is not independent of the cache. -/
theorem create_table_reads_cache :
    (create_table c8StateWithEntry 10 (.cursor ⟨[], [], 0, 0⟩) (.transport "u")
        "default" "t" [c8Column]).1 = c8CachedResult
    ∧ (create_table c8StateEmpty 10 (.cursor ⟨[], [], 0, 0⟩) (.transport "u")
        "default" "t" [c8Column]).1
      = { success := true, affected_rows := some 0, last_insert_id := some 0 }
    ∧ c8CachedResult
      ≠ { success := true, affected_rows := some 0, last_insert_id := some 0 } := by decide

theorem get_schema_info_cache_frame (cfg : Config) (conns : List (String × Handle))
    (cache1 cache2 : List (String × CacheEntry)) (sqout : SqliteOutcome)
    (d1out : HttpOutcome) (database : String) :
    (get_schema_info ⟨cfg, conns, cache1⟩ sqout d1out database).1
      = (get_schema_info ⟨cfg, conns, cache2⟩ sqout d1out database).1
    ∧ (get_schema_info ⟨cfg, conns, cache1⟩ sqout d1out database).2.query_cache = cache1 := by
  unfold get_schema_info
  cases hgc : get_connection cfg conns database with
  | error msg => exact ⟨rfl, rfl⟩
  | ok pr =>
    obtain ⟨h, conns2⟩ := pr
    cases h <;> cases sqout <;> exact ⟨rfl, rfl⟩

/-- C8, amended: `list_tables` and `table_info` neither read from nor
write to the query cache — their outcome is independent of the cache
contents and they leave the cache map unchanged; `create_table` also
leaves the cache map unchanged (its `fetch=false` submission never
stores), though its outcome may be served from an existing entry (see
the counterexample). -/
theorem schema_ops_cache_frame (cfg : Config) (conns : List (String × Handle))
    (cache1 cache2 : List (String × CacheEntry)) (sqout : SqliteOutcome)
    (d1out : HttpOutcome) (database table tname : String) (cols : List ColumnSpec)
    (now : Nat) :
    (list_tables ⟨cfg, conns, cache1⟩ sqout d1out database).1
      = (list_tables ⟨cfg, conns, cache2⟩ sqout d1out database).1
    ∧ (list_tables ⟨cfg, conns, cache1⟩ sqout d1out database).2.query_cache = cache1
    ∧ (get_table_info ⟨cfg, conns, cache1⟩ sqout d1out database tname).1
      = (get_table_info ⟨cfg, conns, cache2⟩ sqout d1out database tname).1
    ∧ (get_table_info ⟨cfg, conns, cache1⟩ sqout d1out database tname).2.query_cache = cache1
    ∧ (create_table ⟨cfg, conns, cache1⟩ now sqout d1out database table cols).2.query_cache
      = cache1 := by
  refine ⟨?_, ?_, ?_, ?_, ?_⟩
  · have hs := get_schema_info_cache_frame cfg conns cache1 cache2 sqout d1out database
    simp only [list_tables]
    rw [hs.1]
    split
    · rfl
    · exact hs.1
  · have hs := get_schema_info_cache_frame cfg conns cache1 cache1 sqout d1out database
    simp only [list_tables]
    split
    · exact hs.2
    · exact hs.2
  · unfold get_table_info
    cases hgc : get_connection cfg conns database with
    | error msg => rfl
    | ok pr =>
      obtain ⟨h, conns2⟩ := pr
      cases h <;> cases sqout <;> rfl
  · unfold get_table_info
    cases hgc : get_connection cfg conns database with
    | error msg => rfl
    | ok pr =>
      obtain ⟨h, conns2⟩ := pr
      cases h <;> cases sqout <;> rfl
  · unfold create_table
    simp only [execute_query]
    cases hcl : cacheLookup ⟨cfg, conns, cache1⟩ now
        (_get_cache_key database (create_table_sql table cols) none) with
    | some r => rfl
    | none =>
      cases hgc : get_connection cfg conns database with
      | error msg => rfl
      | ok pr =>
        obtain ⟨h, conns2⟩ := pr
        simp only []
        cases hrb : runBackend h sqout d1out false with
        | error msg => rfl
        | ok result => simp [Bool.and_false]

end DBConnector
